import Mathlib

/-!
Verification of the store-agent conversation pipeline.

Python strings are modelled as `List Char` (the sources only manipulate
ASCII text); Python's `str` methods used by the code are embedded as
executable functions on `List Char`.  External collaborators (the MySQL
database, the LLM) are parameters of the embedded functions.
-/

namespace StoreAgent

/-- The characters of a Lean string literal, used to write Python string
constants from the source. -/
def cs (s : String) : List Char := s.data

/-- Python default whitespace (`str.strip`, `str.split`, regex `\s`),
restricted to the ASCII fragment. -/
def isSpaceC (c : Char) : Bool :=
  c == ' ' || c == '\t' || c == '\n' || c == '\r' || c == '\x0b' || c == '\x0c'

/-- ASCII decimal digit, as in Python `str.isdigit` / regex `\d` on ASCII. -/
def isDigitC (c : Char) : Bool := '0' ≤ c && c ≤ '9'

/-- `str.upper`, ASCII fragment. -/
def pyUpper (s : List Char) : List Char := s.map Char.toUpper

/-- `str.lower`, ASCII fragment. -/
def pyLower (s : List Char) : List Char := s.map Char.toLower

/-- `str.strip()` with no argument: drop leading and trailing whitespace. -/
def pyStrip (s : List Char) : List Char :=
  ((s.dropWhile isSpaceC).reverse.dropWhile isSpaceC).reverse

/-- `pat` is a prefix of `s` (Python `str.startswith`). -/
def isPrefixC : List Char → List Char → Bool
  | [], _ => true
  | _ :: _, [] => false
  | a :: pat, b :: s => a == b && isPrefixC pat s

/-- Python substring containment `pat in s`. -/
def containsSub (s pat : List Char) : Bool :=
  match s with
  | [] => pat.isEmpty
  | _ :: t => isPrefixC pat s || containsSub t pat

/-- Leftmost occurrence of `pat` in the remaining text, with running index
`i`: the scanning core of Python `str.find` and `re.search`. -/
def pyFindAux (pat : List Char) : List Char → Nat → Option Nat
  | [], i => if pat.isEmpty then some i else none
  | s@(_ :: t), i => if isPrefixC pat s then some i else pyFindAux pat t (i + 1)

/-- Python `s.find(pat)`: leftmost index or `-1`. -/
def pyFind (pat s : List Char) : Int :=
  match pyFindAux pat s 0 with
  | some i => (i : Int)
  | none => -1

/-- The suffix after the rightmost occurrence of `pat`, or the whole string
when `pat` does not occur: Python `s.split(pat)[-1]` for a pattern (such as
`"LIMIT"`) with no self-overlap. -/
def afterLastAux (pat : List Char) : List Char → Option (List Char)
  | [] => if pat.isEmpty then some [] else none
  | s@(_ :: t) =>
      match afterLastAux pat t with
      | some r => some r
      | none => if isPrefixC pat s then some (s.drop pat.length) else none

/-- Python `s.split(pat)[-1]`. -/
def afterLastSub (pat s : List Char) : List Char := (afterLastAux pat s).getD s

/-- Python `s.split()[0]`: first whitespace-delimited token, `none` when the
string holds no token (the source's `IndexError` path). -/
def firstToken (s : List Char) : Option (List Char) :=
  let t := s.dropWhile isSpaceC
  if t.isEmpty then none else some (t.takeWhile (fun c => !isSpaceC c))

/-- Python `str.isdigit`, ASCII fragment. -/
def pyIsDigitStr (s : List Char) : Bool := !s.isEmpty && s.all isDigitC

/-- Python `int(...)` on a digit string. -/
def natOfDigits (s : List Char) : Nat :=
  s.foldl (fun n c => n * 10 + (c.toNat - 48)) 0

/-- Decimal rendering of a natural number (Python string formatting of an
`int`). -/
def natStr (n : Nat) : List Char := (Nat.repr n).data

/-- `re.search(kw + "\s+(\d+)", s)` at one start position: the keyword, then
one or more whitespace characters, then the (greedy) digit group. -/
def matchKwNumAt (kw s : List Char) : Option Nat :=
  if isPrefixC kw s then
    let r1 := s.drop kw.length
    if (r1.takeWhile isSpaceC).isEmpty then none
    else
      let r2 := r1.dropWhile isSpaceC
      let ds := r2.takeWhile isDigitC
      if ds.isEmpty then none else some (natOfDigits ds)
  else none

/-- `re.search(kw + "\s+(\d+)", s)`: leftmost match wins. -/
def searchKwNum (kw : List Char) : List Char → Option Nat
  | [] => matchKwNumAt kw []
  | s@(_ :: t) =>
      match matchKwNumAt kw s with
      | some n => some n
      | none => searchKwNum kw t

/-- `re.search("(\d+)\s+" + kw, s)` at one start position (`kw` is the
mandatory part of `results?` / `items?` / `products?`). -/
def matchNumKwAt (kw s : List Char) : Option Nat :=
  let ds := s.takeWhile isDigitC
  if ds.isEmpty then none
  else
    let r1 := s.dropWhile isDigitC
    if (r1.takeWhile isSpaceC).isEmpty then none
    else if isPrefixC kw (r1.dropWhile isSpaceC) then some (natOfDigits ds)
    else none

/-- `re.search("(\d+)\s+" + kw, s)`: leftmost match wins. -/
def searchNumKw (kw : List Char) : List Char → Option Nat
  | [] => matchNumKwAt kw []
  | s@(_ :: t) =>
      match matchNumKwAt kw s with
      | some n => some n
      | none => searchNumKw kw t

/-- The ordered natural-language count-cue patterns of
`execute_sql_query` (product_filter_agent.py lines 106-120): the first
pattern with a match determines the requested count. -/
def firstPatternMatch (u : List Char) : Option Nat :=
  match searchKwNum (cs "top") u with
  | some n => some n
  | none =>
  match searchKwNum (cs "show") u with
  | some n => some n
  | none =>
  match searchKwNum (cs "limit") u with
  | some n => some n
  | none =>
  match searchNumKw (cs "result") u with
  | some n => some n
  | none =>
  match searchNumKw (cs "item") u with
  | some n => some n
  | none => searchNumKw (cs "product") u

/-- The gate of product_filter_agent.py line 101: the pattern scan only runs
when the lowercased query text contains one of these keywords. -/
def cueGate (u : List Char) : Bool :=
  containsSub u (cs "top") || containsSub u (cs "show") || containsSub u (cs "limit")

/-- The result-limit computation of `execute_sql_query`
(product_filter_agent.py lines 84-120): an explicit `LIMIT` in the query is
honoured; otherwise the natural-language cues are scanned over the
lowercased query text itself; otherwise the default is 10. -/
def computeResultLimit (query queryUpper : List Char) (count : Nat) : Nat :=
  if containsSub queryUpper (cs "LIMIT") then
    match firstToken (pyStrip (afterLastSub (cs "LIMIT") queryUpper)) with
    | some tok => if pyIsDigitStr tok then natOfDigits tok else 10
    | none => 10
  else
    let userQuery := pyLower query
    if cueGate userQuery then
      match firstPatternMatch userQuery with
      | some n => Nat.min n count
      | none => 10
    else 10

/-- The allow-list check of `execute_sql_query`: the trimmed upper-cased
query must start with SELECT, DESCRIBE or SHOW. -/
def allowedStart (qU : List Char) : Bool :=
  isPrefixC (cs "SELECT") qU || isPrefixC (cs "DESCRIBE") qU || isPrefixC (cs "SHOW") qU

/-- The forbidden-keyword check of `execute_sql_query`: substring containment
over the trimmed upper-cased query. -/
def hasForbidden (qU : List Char) : Bool :=
  containsSub qU (cs "INSERT") || containsSub qU (cs "UPDATE") ||
  containsSub qU (cs "DELETE") || containsSub qU (cs "DROP") ||
  containsSub qU (cs "CREATE") || containsSub qU (cs "ALTER") ||
  containsSub qU (cs "TRUNCATE")

/-- Outcome of the external database call, a parameter of the embedding:
no connection (`get_db_connection` returned `None`), an execution error
(the `except` branch), or the fetched rows. -/
inductive DbOut (α : Type) : Type where
  | noConn : DbOut α
  | err (e : List Char) : DbOut α
  | rows (rs : List α) : DbOut α

/-- The response dictionary built by `execute_sql_query`
(agents/product_filter_agent.py): `count` is the total available row count
("Total available results" in the source), `total_available` / `showing` /
`has_more` are only present on the successful non-empty branch. -/
structure QueryResultPayload (α : Type) : Type where
  count : Nat
  results : List α
  query : List Char
  message : List Char
  total_available : Option Nat
  showing : Option Nat
  has_more : Option Bool
deriving DecidableEq

/-- Success message of the non-empty branch (line 127). -/
def successMessage (count limit : Nat) : List Char :=
  cs "Query executed successfully. Found " ++ natStr count ++
  cs " total results. Showing " ++ natStr (Nat.min limit count) ++ cs " results."

/-- `execute_sql_query` of agents/product_filter_agent.py (lines 16-160),
with the database call abstracted as the `db` parameter; rows are an
abstract type `α`.  Validation happens before any use of `db`. -/
def executeSqlQuery {α : Type} (db : DbOut α) (query : List Char) :
    QueryResultPayload α :=
  let queryUpper := pyUpper (pyStrip query)
  if !allowedStart queryUpper then
    ⟨0, [], query,
     cs "Error: Only SELECT, DESCRIBE, and SHOW queries are allowed for security reasons.",
     none, none, none⟩
  else if hasForbidden queryUpper then
    ⟨0, [], query,
     cs "Error: Query contains forbidden keywords. Only SELECT, DESCRIBE, and SHOW queries are allowed.",
     none, none, none⟩
  else
    match db with
    | .noConn => ⟨0, [], query, cs "Unable to connect to database", none, none, none⟩
    | .err e => ⟨0, [], query, cs "Error executing query: " ++ e, none, none, none⟩
    | .rows results =>
      if !results.isEmpty then
        let count := results.length
        let resultLimit := computeResultLimit query queryUpper count
        ⟨count, results.take resultLimit, query, successMessage count resultLimit,
         some count, some (Nat.min resultLimit count), some (decide (count > resultLimit))⟩
      else
        ⟨0, [], query, cs "Query executed successfully. No results found.",
         none, none, none⟩

/-- Outcome of the external database call for sql_assistant_agent.py: rows
are abstracted as the Python `repr` text of each result-row dictionary
(external data rendered by `str`). -/
inductive DbOutS : Type where
  | noConn : DbOutS
  | err (e : List Char) : DbOutS
  | rows (rendered : List (List Char)) : DbOutS

/-- Python `repr` of a string, restricted to text without backslashes or
control characters: single quotes, switching to double quotes when the text
contains a single quote and no double quote. -/
def pyReprStr (s : List Char) : List Char :=
  if s.contains '\'' && !(s.contains '"') then '"' :: (s ++ ['"'])
  else '\'' :: (s ++ ['\''])

/-- Comma-space join, as in Python `str` of a list. -/
def joinCommaSp : List (List Char) → List Char
  | [] => []
  | [x] => x
  | x :: y :: xs => x ++ cs ", " ++ joinCommaSp (y :: xs)

/-- `str(execute_sql_query(query))` of sql_assistant_agent.py (lines 36-95):
the text of the tool-result message built by `execute_tool`.  Validation
happens before any use of `db`. -/
def executeSqlQueryContentS (db : DbOutS) (query : List Char) : List Char :=
  let queryUpper := pyUpper (pyStrip query)
  if !allowedStart queryUpper then
    cs "Error: Only SELECT, DESCRIBE, and SHOW queries are allowed for security reasons."
  else if hasForbidden queryUpper then
    cs "Error: Query contains forbidden keywords. Only SELECT, DESCRIBE, and SHOW queries are allowed."
  else
    match db with
    | .noConn => cs "Unable to connect to CaratLane stage database"
    | .err e => cs "Error executing query: " ++ e
    | .rows rendered =>
      if !rendered.isEmpty then
        cs "\x7b'count': " ++ natStr rendered.length ++ cs ", 'results': [" ++
        joinCommaSp rendered ++ cs "], 'query': " ++ pyReprStr query ++ cs "\x7d"
      else
        cs "\x7b'count': 0, 'results': [], 'query': " ++ pyReprStr query ++
        cs ", 'message': 'Query executed successfully but returned no results.'\x7d"

/-- The schema/metadata test of `should_continue` (sql_assistant_agent.py
lines 176-185): a tool result re-enters the model only when its content
contains both `Field` and `Type`; every other tool result ends the loop
(both the data branch and the final `else` branch return `END`). -/
def isSchemaToolResult (content : List Char) : Bool :=
  containsSub content (cs "Field") && containsSub content (cs "Type")

/-- One scripted model response: plain text, or a response whose first (and
only honoured) tool call invokes `execute_sql_query` with `query`. -/
inductive ModelResponse : Type where
  | text (content : List Char) : ModelResponse
  | toolCall (query : List Char) : ModelResponse

/-- Number of tool-invocation responses in a model-response script. -/
def countToolResponses : List ModelResponse → Nat
  | [] => 0
  | .text _ :: rest => countToolResponses rest
  | .toolCall _ :: rest => countToolResponses rest + 1

/-- The tool-call loop of sql_assistant_agent.py (`call_model` /
`should_continue` / `execute_tool` wired by the graph, lines 220-233), run
against a finite script of model responses; `dbEnv` is the external
database.  Returns the number of model-invocation cycles needed to reach
the terminal state, or `none` when the script is exhausted first. -/
def runToolLoop (dbEnv : List Char → DbOutS) : List ModelResponse → Option Nat
  | [] => none
  | .text _ :: _ => some 1
  | .toolCall q :: rest =>
      let content := executeSqlQueryContentS (dbEnv q) q
      if isSchemaToolResult content then (runToolLoop dbEnv rest).map (· + 1)
      else some 1

/-- `route_via_llm` of agents/orchestrator_agent.py (lines 42-50): the raw
model output (`None` modelled as `none`) is stripped and lowercased and
returned unchanged — there is no fallback to a known handler. -/
def routeViaLlm (modelOutput : Option (List Char)) : List Char :=
  pyLower (pyStrip (modelOutput.getD []))

/-- The handler identifiers known to the conditional-edge mapping of
`create_orchestrator_graph` (lines 62-70). -/
def knownHandlers : List (List Char) :=
  [cs "product_filter_node", cs "store_analysis_node"]

/-- The message classes the repository constructs (langchain `type`
strings `human` / `ai` / `system` / `tool`).  `_deserialize_message` maps
any stored type outside the first three to the `ai` default. -/
inductive Role : Type where
  | human : Role
  | ai : Role
  | system : Role
  | tool : Role
deriving DecidableEq

/-- A tool-invocation request carried by a message: name, the `query`
argument when present, and the call identifier. -/
structure ToolCallRec : Type where
  name : List Char
  argsQuery : Option (List Char)
  id : List Char
deriving DecidableEq

/-- An in-memory conversation message: role, textual content, and the
tool-invocation requests (empty for messages without any). -/
structure Msg : Type where
  role : Role
  content : List Char
  toolCalls : List ToolCallRec
deriving DecidableEq

/-- A compacted tool call as stored by `_serialize_message` (lines 139-154):
`execute_sql_query` calls with a `query` argument are reduced to the query,
any other call is kept whole. -/
inductive CompactCall : Type where
  | compactQ (query : List Char) : CompactCall
  | full (tc : ToolCallRec) : CompactCall
deriving DecidableEq

/-- The dictionary produced by `_serialize_message`: type, content, the
optional extracted `sql_query`, and the optional compacted `tool_calls`. -/
structure SMsg : Type where
  mtype : Role
  content : List Char
  sqlQuery : Option (List Char)
  toolCalls : Option (List CompactCall)
deriving DecidableEq

/-- The marker tested with `in` by the serializer and the pagination scan. -/
def sqlResultMarker : List Char := cs "SQL Query Result:"

/-- The marker (with trailing space) passed to `str.find`; its length is 18. -/
def sqlResultMarkerSp : List Char := cs "SQL Query Result: "

/-- `json.loads(s).get("query", "")` restricted to the payload shapes this
system emits (`json.dumps` output and the deserializer's reconstruction):
the string value after the first `"query": "` key, read up to the next
double quote.  Escape sequences inside the value are not modelled (the
queries this system stores contain no double quote or backslash); a missing
key (Python returns the falsy `""`) and an unparseable payload both yield
`none`, which every caller treats the same way as the source does. -/
def extractQueryField (s : List Char) : Option (List Char) :=
  match pyFindAux (cs "\"query\": \"") s 0 with
  | none => none
  | some i => some ((s.drop (i + 10)).takeWhile (fun c => !(c == '"')))

/-- `content.find("SQL Query Result: ") + len("SQL Query Result: ")`: the
slice start used by `_serialize_message` (lines 100-103) and the pagination
scan (lines 273-276).  When `find` returns `-1` the source slices from
index 17; that quirk is kept. -/
def markerStart (content : List Char) : Nat :=
  match pyFindAux sqlResultMarkerSp content 0 with
  | some i => i + sqlResultMarkerSp.length
  | none => sqlResultMarkerSp.length - 1

/-- `content[content.find("SQL Query Result: ") + 18:].strip()` followed by
the query extraction: the shared per-message step of `_serialize_message`
(lines 96-130) and the pagination scan (lines 270-278). -/
def extractQueryFromContent (content : List Char) : Option (List Char) :=
  extractQueryField (pyStrip (content.drop (markerStart content)))

/-- Compaction of one tool call (`_serialize_message` lines 142-153). -/
def compactCall (tc : ToolCallRec) : CompactCall :=
  if tc.name = cs "execute_sql_query" ∧ tc.argsQuery.isSome then
    CompactCall.compactQ (tc.argsQuery.getD [])
  else CompactCall.full tc

/-- The `sql_query` value `_serialize_message` stores (lines 89-134): only
for AI messages with nonempty content embedding the structured-result
marker, and only when the extraction yields a nonempty query (Python's
`if sql_query:` truthiness test). -/
def extractedSqlQuery (m : Msg) : Option (List Char) :=
  if m.role = Role.ai ∧ m.content ≠ [] ∧ containsSub m.content sqlResultMarker = true then
    match extractQueryFromContent m.content with
    | some q => if q ≠ [] then some q else none
    | none => none
  else none

/-- `SimpleRedisChatHistory._serialize_message` (redis_helper.py lines
81-156): type and content always; when a `sql_query` was extracted it is
stored and the content is replaced by the `SQL Query executed:` marker;
nonempty tool-call lists are compacted. -/
def serializeMessage (m : Msg) : SMsg :=
  { mtype := m.role
    content :=
      match extractedSqlQuery m with
      | some q => cs "SQL Query executed: " ++ q
      | none => m.content
    sqlQuery := extractedSqlQuery m
    toolCalls :=
      if m.toolCalls ≠ [] then some (m.toolCalls.map compactCall) else none }

/-- The fixed prefix of the content `_deserialize_message` reconstructs. -/
def reconPre : List Char := cs "SQL Query Result: \x7b\"query\": \""

/-- The fixed suffix of the content `_deserialize_message` reconstructs. -/
def reconSuf : List Char := cs "\", \"count\": 0, \"results\": []\x7d"

/-- `SimpleRedisChatHistory._deserialize_message` (redis_helper.py lines
158-179): `human` / `system` map back; `ai` with a stored `sql_query`
reconstructs a minimal structured-query-result content; every other stored
type falls back to an AI message. -/
def deserializeMessage (s : SMsg) : Msg :=
  match s.mtype with
  | Role.human => ⟨Role.human, s.content, []⟩
  | Role.ai =>
      match s.sqlQuery with
      | some q => ⟨Role.ai, reconPre ++ q ++ reconSuf, []⟩
      | none => ⟨Role.ai, s.content, []⟩
  | Role.system => ⟨Role.system, s.content, []⟩
  | Role.tool => ⟨Role.ai, s.content, []⟩

/-- `deserialize(serialize(history))` over a message list. -/
def roundTrip (msgs : List Msg) : List Msg :=
  (msgs.map serializeMessage).map deserializeMessage

/-- `SimpleRedisChatHistory.get_messages` (lines 46-71): deserialize every
stored dictionary (in the model no entry fails to deserialize). -/
def getMessages (store : List SMsg) : List Msg := store.map deserializeMessage

/-- `SimpleRedisChatHistory.add_messages` (lines 23-44): read the existing
messages, append the new ones, and store the serialization of the whole
list (replace-all write). -/
def addMessages (store : List SMsg) (msgs : List Msg) : List SMsg :=
  (getMessages store ++ msgs).map serializeMessage

/-- `invoke_orchestrator` (agents/orchestrator_agent.py lines 83-119) at the
history-persistence level: load the history, clear it when it exceeds 100
messages, run the turn (the graph run, an external function `turn` of the
loaded history), and append the turn's final `chat_history` to the store. -/
def invokeOrchestrator (store : List SMsg) (turn : List Msg → List Msg) :
    List SMsg :=
  let past := getMessages store
  if past.length > 100 then addMessages [] (turn [])
  else addMessages store (turn past)

/-- The continuation cues of `product_filter_node`
(agents/product_filter_agent.py lines 251-262). -/
def paginationKeywords : List (List Char) :=
  [cs "show more", cs "load more", cs "next page", cs "more results",
   cs "continue", cs "pagination", cs "more", cs "next", cs "additional",
   cs "further"]

/-- `query and any(keyword in query.lower() for keyword in
pagination_keywords)` (line 263). -/
def isPaginationRequest (query : List Char) : Bool :=
  !query.isEmpty && paginationKeywords.any (fun kw => containsSub (pyLower query) kw)

/-- The scan of `product_filter_node` (lines 264-284) over the reversed
history: the first message (most recent first) whose content embeds a
structured query result whose `query` field contains `LIMIT`. -/
def findLastQueryWithLimitAux : List Msg → Option (List Char)
  | [] => none
  | m :: rest =>
      if m.content ≠ [] ∧ containsSub m.content sqlResultMarker = true then
        match extractQueryFromContent m.content with
        | some q => if containsSub q (cs "LIMIT") then some q else findLastQueryWithLimitAux rest
        | none => findLastQueryWithLimitAux rest
      else findLastQueryWithLimitAux rest

/-- The last executed query with a `LIMIT` clause found in the history. -/
def findLastQueryWithLimit (history : List Msg) : Option (List Char) :=
  findLastQueryWithLimitAux history.reverse

/-- Modelled from the spec: the bound value `L` of a query's bound clause
(spec §4.3, "extract its bound value L") — the number after `LIMIT`.  In
the source the extraction is performed by the model following the prompt of
`product_filter_node`; it is not executed repository code. -/
def limitValue (q : List Char) : Option Nat := searchKwNum (cs "LIMIT") q

/-- Modelled from the spec: the offset value `O` of a query's offset clause
(spec §4.3) — the number after `OFFSET`.  Performed by the model in the
source. -/
def offsetValue (q : List Char) : Option Nat := searchKwNum (cs "OFFSET") q

/-- Modelled from the spec: "the same query text with the offset clause
added or updated" — replace the number after the first `OFFSET` with
`newNum`. -/
def replaceOffsetNum (q newNum : List Char) : List Char :=
  match pyFindAux (cs "OFFSET") q 0 with
  | none => q
  | some i =>
      let pre := q.take (i + 6)
      let rest := q.drop (i + 6)
      pre ++ rest.takeWhile isSpaceC ++ newNum ++
        (rest.dropWhile isSpaceC).dropWhile isDigitC

/-- Modelled from the spec: the offset arithmetic of the Pagination
Resolver (spec §4.3): with bound `L`, a query without an offset clause gets
` OFFSET L` appended; one with offset `O` has the offset updated to
`O + L`.  In the source this arithmetic is delegated to the model via the
pagination prompt of `product_filter_node` (lines 286-335) and is not
executed repository code. -/
def resolveOffsetQuery (q : List Char) : Option (List Char) :=
  match limitValue q with
  | none => none
  | some L =>
      match offsetValue q with
      | none => some (q ++ cs " OFFSET " ++ natStr L)
      | some O => some (replaceOffsetNum q (natStr (O + L)))

/-- The Pagination Resolver: on a continuation request, the last bounded
query of the history with its offset advanced (history scan embedded from
`product_filter_node`; offset arithmetic modelled from the spec). -/
def resolveNextPage (history : List Msg) (query : List Char) : Option (List Char) :=
  if isPaginationRequest query then (findLastQueryWithLimit history).bind resolveOffsetQuery
  else none

/-! Helper lemmas shared by the claim theorems. -/

lemma deserializeMessage_role (s : SMsg) :
    (deserializeMessage s).role = if s.mtype = Role.tool then Role.ai else s.mtype := by
  rcases s with ⟨t, c, sq, tc⟩
  cases t <;> first | rfl | (cases sq <;> rfl)

lemma roundtrip_role (m : Msg) (h : m.role ≠ Role.tool) :
    (deserializeMessage (serializeMessage m)).role = m.role := by
  rw [deserializeMessage_role]
  have hm : (serializeMessage m).mtype = m.role := rfl
  rw [hm, if_neg h]

lemma pyStrip_id (l : List Char) (h1 : l.dropWhile isSpaceC = l)
    (h2 : l.reverse.dropWhile isSpaceC = l.reverse) : pyStrip l = l := by
  unfold pyStrip
  rw [h1, h2, List.reverse_reverse]

lemma takeWhile_append_quote (q : List Char) (hq : ∀ c ∈ q, (c == '"') = false) :
    (q ++ reconSuf).takeWhile (fun c => !(c == '"')) = q := by
  induction q with
  | nil => rfl
  | cons c t ih =>
      have hc := hq c (List.mem_cons_self _ _)
      simp only [List.cons_append, List.takeWhile_cons, hc, Bool.not_false, if_true]
      rw [ih (fun x hx => hq x (List.mem_cons_of_mem _ hx))]

lemma extract_recon (q : List Char) (hq : ∀ c ∈ q, (c == '"') = false) :
    extractQueryFromContent (reconPre ++ q ++ reconSuf) = some q := by
  have h1 : extractQueryFromContent (reconPre ++ q ++ reconSuf) =
      extractQueryField (pyStrip (cs "\x7b\"query\": \"" ++ (q ++ reconSuf))) := rfl
  rw [h1]
  have h2 : pyStrip (cs "\x7b\"query\": \"" ++ (q ++ reconSuf)) =
      cs "\x7b\"query\": \"" ++ (q ++ reconSuf) := by
    apply pyStrip_id
    · rfl
    · rw [List.reverse_append, List.reverse_append]
      rfl
  rw [h2]
  have h3 : extractQueryField (cs "\x7b\"query\": \"" ++ (q ++ reconSuf)) =
      some ((q ++ reconSuf).takeWhile (fun c => !(c == '"'))) := rfl
  rw [h3, takeWhile_append_quote q hq]

lemma extract_no_quote (c q : List Char) (h : extractQueryFromContent c = some q) :
    ∀ ch ∈ q, (ch == '"') = false := by
  intro ch hch
  unfold extractQueryFromContent extractQueryField at h
  rcases hf : pyFindAux (cs "\"query\": \"") (pyStrip (c.drop (markerStart c))) 0 with _ | i
  · rw [hf] at h
    exact absurd h (by simp)
  · rw [hf] at h
    simp only [Option.some.injEq] at h
    subst h
    have := List.mem_takeWhile_imp hch
    simpa using this

lemma extractedSqlQuery_eq_some (m : Msg) (q : List Char)
    (h : extractedSqlQuery m = some q) :
    m.role = Role.ai ∧ extractQueryFromContent m.content = some q := by
  unfold extractedSqlQuery at h
  by_cases hc : m.role = Role.ai ∧ m.content ≠ [] ∧ containsSub m.content sqlResultMarker = true
  · rw [if_pos hc] at h
    rcases hx : extractQueryFromContent m.content with _ | q'
    · rw [hx] at h
      simp at h
    · rw [hx] at h
      dsimp only at h
      by_cases hq : q' ≠ []
      · rw [if_pos hq] at h
        cases h
        exact ⟨hc.1, rfl⟩
      · rw [if_neg hq] at h
        simp at h
  · rw [if_neg hc] at h
    simp at h

lemma roundtrip_content_query (m : Msg) :
    extractQueryFromContent (deserializeMessage (serializeMessage m)).content =
      extractQueryFromContent m.content := by
  rcases hs : extractedSqlQuery m with _ | q
  · have hser : serializeMessage m =
        ⟨m.role, m.content, none,
         if m.toolCalls ≠ [] then some (m.toolCalls.map compactCall) else none⟩ := by
      simp [serializeMessage, hs]
    rw [hser]
    cases hr : m.role <;> rfl
  · obtain ⟨hai, hx⟩ := extractedSqlQuery_eq_some m q hs
    have hser : serializeMessage m =
        ⟨Role.ai, cs "SQL Query executed: " ++ q, some q,
         if m.toolCalls ≠ [] then some (m.toolCalls.map compactCall) else none⟩ := by
      simp [serializeMessage, hs, hai]
    rw [hser]
    have hdes : deserializeMessage
        ⟨Role.ai, cs "SQL Query executed: " ++ q, some q,
         if m.toolCalls ≠ [] then some (m.toolCalls.map compactCall) else none⟩ =
        ⟨Role.ai, reconPre ++ q ++ reconSuf, []⟩ := rfl
    rw [hdes, hx]
    exact extract_recon q (extract_no_quote m.content q hx)

/-! Claim theorems. -/

/-- C1: every query whose trimmed upper-cased form contains one of the
forbidden keywords (INSERT, UPDATE, DELETE, DROP, CREATE, ALTER, TRUNCATE)
as a substring yields a rejection result — zero count, empty row set, an
`Error:` message — and the database-execution branch is never reached (the
result is independent of the database outcome), in both embeddings of
`execute_sql_query` (agents/product_filter_agent.py and
sql_assistant_agent.py); this holds even when the string begins with
SELECT, e.g. a SELECT whose string literal contains `DELETE`. -/
theorem forbidden_keyword_queries_rejected {α : Type} (q : List Char)
    (db db' : DbOut α) (dbS dbS' : DbOutS)
    (h : hasForbidden (pyUpper (pyStrip q)) = true) :
    (executeSqlQuery db q).count = 0 ∧
    (executeSqlQuery db q).results = [] ∧
    isPrefixC (cs "Error:") (executeSqlQuery db q).message = true ∧
    executeSqlQuery db q = executeSqlQuery db' q ∧
    isPrefixC (cs "Error:") (executeSqlQueryContentS dbS q) = true ∧
    executeSqlQueryContentS dbS q = executeSqlQueryContentS dbS' q := by
  by_cases ha : allowedStart (pyUpper (pyStrip q)) = true
  · simp [executeSqlQuery, executeSqlQueryContentS, ha, h]
    rfl
  · simp [executeSqlQuery, executeSqlQueryContentS, ha, h]
    rfl

/-- C1's witness: the claim's own example — a SELECT whose string literal
contains `DELETE` — is rejected independently of the database. -/
theorem forbidden_keyword_queries_rejected_witness :
    (executeSqlQuery (DbOut.rows [(0 : Nat)]) (cs "SELECT * FROM t WHERE note = 'please DELETE nothing'")).count = 0 ∧
    (executeSqlQuery (DbOut.rows [(0 : Nat)]) (cs "SELECT * FROM t WHERE note = 'please DELETE nothing'")).results = [] ∧
    isPrefixC (cs "Error:") (executeSqlQuery (DbOut.rows [(0 : Nat)]) (cs "SELECT * FROM t WHERE note = 'please DELETE nothing'")).message = true ∧
    executeSqlQuery (DbOut.rows [(0 : Nat)]) (cs "SELECT * FROM t WHERE note = 'please DELETE nothing'") =
      executeSqlQuery DbOut.noConn (cs "SELECT * FROM t WHERE note = 'please DELETE nothing'") ∧
    isPrefixC (cs "Error:") (executeSqlQueryContentS (DbOutS.rows [cs "row"]) (cs "SELECT * FROM t WHERE note = 'please DELETE nothing'")) = true ∧
    executeSqlQueryContentS (DbOutS.rows [cs "row"]) (cs "SELECT * FROM t WHERE note = 'please DELETE nothing'") =
      executeSqlQueryContentS DbOutS.noConn (cs "SELECT * FROM t WHERE note = 'please DELETE nothing'") :=
  forbidden_keyword_queries_rejected _ _ _ _ _ (by rfl)

/-- C2's counterexample: the claim's own instance — query
`SELECT * FROM product` (no LIMIT), original request text
`show me top 5 rings`, 50 fetched rows — yields `shown = 10`, not 5:
`execute_sql_query` receives only the query text, and the count-cue scan
(product_filter_agent.py line 100) runs over `query.lower()`, never over
the original request text, so the request's `top 5` cannot influence the
window. -/
theorem count_cue_ignores_request_text_counterexample :
    (executeSqlQuery (DbOut.rows (List.replicate 50 (0 : Nat))) (cs "SELECT * FROM product")).total_available = some 50 ∧
    (executeSqlQuery (DbOut.rows (List.replicate 50 (0 : Nat))) (cs "SELECT * FROM product")).has_more = some true ∧
    (executeSqlQuery (DbOut.rows (List.replicate 50 (0 : Nat))) (cs "SELECT * FROM product")).showing = some 10 ∧
    ¬ (executeSqlQuery (DbOut.rows (List.replicate 50 (0 : Nat))) (cs "SELECT * FROM product")).showing = some 5 :=
  ⟨rfl, rfl, rfl, by decide⟩

/-- C2 as amended: the ordered count-cue patterns (`top N`, `show N`,
`limit N`, `N results`, `N items`, `N products`) are scanned over the
lowercased executed query text itself — not the original request text,
which never reaches the executor — and only when that text contains `top`,
`show` or `limit`; the first matching pattern's number, capped at the total
row count, determines the shown count. -/
theorem count_cue_scan_on_query_text {α : Type} (q : List Char) (rows : List α) (n : Nat)
    (ha : allowedStart (pyUpper (pyStrip q)) = true)
    (hf : hasForbidden (pyUpper (pyStrip q)) = false)
    (hnl : containsSub (pyUpper (pyStrip q)) (cs "LIMIT") = false)
    (hg : cueGate (pyLower q) = true)
    (hm : firstPatternMatch (pyLower q) = some n)
    (hrows : rows ≠ []) :
    (executeSqlQuery (DbOut.rows rows) q).showing = some (Nat.min n rows.length) ∧
    (executeSqlQuery (DbOut.rows rows) q).total_available = some rows.length ∧
    (executeSqlQuery (DbOut.rows rows) q).has_more =
      some (decide (rows.length > Nat.min n rows.length)) := by
  have hne : rows.isEmpty = false := by simp [List.isEmpty_iff, hrows]
  refine ⟨?_, ?_, ?_⟩ <;>
    simp [executeSqlQuery, computeResultLimit, ha, hf, hne, hnl, hg, hm,
      Nat.min_assoc]

/-- C2's witness: a query whose own text carries the cue `top 5` windows 50
rows down to 5. -/
theorem count_cue_scan_on_query_text_witness :
    (executeSqlQuery (DbOut.rows (List.replicate 50 (0 : Nat))) (cs "SELECT * FROM product -- show top 5")).showing =
      some (Nat.min 5 (List.replicate 50 (0 : Nat)).length) ∧
    (executeSqlQuery (DbOut.rows (List.replicate 50 (0 : Nat))) (cs "SELECT * FROM product -- show top 5")).total_available =
      some (List.replicate 50 (0 : Nat)).length ∧
    (executeSqlQuery (DbOut.rows (List.replicate 50 (0 : Nat))) (cs "SELECT * FROM product -- show top 5")).has_more =
      some (decide ((List.replicate 50 (0 : Nat)).length > Nat.min 5 (List.replicate 50 (0 : Nat)).length)) :=
  count_cue_scan_on_query_text _ _ 5 (by rfl) (by rfl) (by rfl) (by rfl) (by rfl) (by decide)

/-- C5: for every non-empty fetched row set of a validated query, the
produced payload satisfies `total_available = count`, `shown =
min(requested, total)` where `requested` is the computed result limit,
`shown ≤ total_available`, and `has_more = (total_available > shown)`. -/
theorem query_result_window_invariant {α : Type} (rows : List α) (q : List Char)
    (hrows : rows ≠ [])
    (ha : allowedStart (pyUpper (pyStrip q)) = true)
    (hf : hasForbidden (pyUpper (pyStrip q)) = false) :
    (executeSqlQuery (DbOut.rows rows) q).total_available = some rows.length ∧
    (executeSqlQuery (DbOut.rows rows) q).showing =
      some (Nat.min (computeResultLimit q (pyUpper (pyStrip q)) rows.length) rows.length) ∧
    Nat.min (computeResultLimit q (pyUpper (pyStrip q)) rows.length) rows.length ≤ rows.length ∧
    (executeSqlQuery (DbOut.rows rows) q).has_more =
      some (decide (rows.length >
        Nat.min (computeResultLimit q (pyUpper (pyStrip q)) rows.length) rows.length)) := by
  have hne : rows.isEmpty = false := by simp [List.isEmpty_iff, hrows]
  refine ⟨?_, ?_, ?_, ?_⟩
  · simp [executeSqlQuery, ha, hf, hne]
  · simp [executeSqlQuery, ha, hf, hne]
  · exact Nat.min_le_right _ _
  · simp [executeSqlQuery, ha, hf, hne]

/-- C5's witness: the spec's windower-default example — no explicit limit,
no numeric cue, 3 fetched rows — shows min(10, 3) = 3 with no more rows. -/
theorem query_result_window_invariant_witness :
    (executeSqlQuery (DbOut.rows (List.replicate 3 (0 : Nat))) (cs "SELECT * FROM product")).total_available =
      some (List.replicate 3 (0 : Nat)).length ∧
    (executeSqlQuery (DbOut.rows (List.replicate 3 (0 : Nat))) (cs "SELECT * FROM product")).showing =
      some (Nat.min (computeResultLimit (cs "SELECT * FROM product")
        (pyUpper (pyStrip (cs "SELECT * FROM product"))) (List.replicate 3 (0 : Nat)).length) (List.replicate 3 (0 : Nat)).length) ∧
    Nat.min (computeResultLimit (cs "SELECT * FROM product")
        (pyUpper (pyStrip (cs "SELECT * FROM product"))) (List.replicate 3 (0 : Nat)).length) (List.replicate 3 (0 : Nat)).length ≤
      (List.replicate 3 (0 : Nat)).length ∧
    (executeSqlQuery (DbOut.rows (List.replicate 3 (0 : Nat))) (cs "SELECT * FROM product")).has_more =
      some (decide ((List.replicate 3 (0 : Nat)).length >
        Nat.min (computeResultLimit (cs "SELECT * FROM product")
          (pyUpper (pyStrip (cs "SELECT * FROM product"))) (List.replicate 3 (0 : Nat)).length) (List.replicate 3 (0 : Nat)).length)) :=
  query_result_window_invariant _ _ (by decide) (by rfl) (by rfl)

/-- C6: every query whose trimmed case-normalized form does not start with
SELECT, DESCRIBE or SHOW is rejected as a structured zero-result payload
(count 0, the total-available field of the rejection dictionary), returned
rather than raised, before any execution attempt: the result is independent
of the database outcome, and the embedding performs no retry — the
rejection is the function's only action. -/
theorem nonallowed_query_rejected {α : Type} (q : List Char) (db db' : DbOut α)
    (h : allowedStart (pyUpper (pyStrip q)) = false) :
    executeSqlQuery db q =
      ⟨0, [], q, cs "Error: Only SELECT, DESCRIBE, and SHOW queries are allowed for security reasons.", none, none, none⟩ ∧
    executeSqlQuery db q = executeSqlQuery db' q := by
  simp [executeSqlQuery, h]

/-- C6's witness: an UPDATE statement is rejected with the structured
zero-result payload, independently of the database. -/
theorem nonallowed_query_rejected_witness :
    executeSqlQuery (DbOut.rows [(0 : Nat)]) (cs "UPDATE product SET price = 0") =
      ⟨0, [], cs "UPDATE product SET price = 0",
       cs "Error: Only SELECT, DESCRIBE, and SHOW queries are allowed for security reasons.", none, none, none⟩ ∧
    executeSqlQuery (DbOut.rows [(0 : Nat)]) (cs "UPDATE product SET price = 0") =
      executeSqlQuery DbOut.noConn (cs "UPDATE product SET price = 0") :=
  nonallowed_query_rejected _ _ _ (by rfl)

/-- C7: evaluation of `route_via_llm` at a model output that matches no
known handler identifier: the code returns the stripped lowercased output
unchanged — `banana` — which is not a member of the conditional-edge
mapping's handler set, so no deterministic default fallback is applied and
the turn fails instead of routing (the claim, the spec and the function's
own `Literal` return annotation require a known identifier). -/
theorem router_no_fallback_returns_unknown :
    routeViaLlm (some (cs "banana")) = cs "banana" ∧
    knownHandlers.contains (routeViaLlm (some (cs "banana"))) = false :=
  ⟨rfl, rfl⟩

/-- C8: a session whose stored history exceeds 100 messages at turn start
is fully cleared before the turn runs — the turn function receives the
empty history — and the post-turn persisted store contains exactly the
serialization of that single turn's messages. -/
theorem history_ceiling_clears_before_turn (store : List SMsg) (turn : List Msg → List Msg)
    (h : (getMessages store).length > 100) :
    invokeOrchestrator store turn = (turn []).map serializeMessage := by
  simp only [invokeOrchestrator]
  rw [if_pos h]
  simp [addMessages, getMessages]

/-- C8's witness: a 101-message store is cleared; the post-turn store holds
only the new turn's two messages. -/
theorem history_ceiling_clears_before_turn_witness :
    invokeOrchestrator (List.replicate 101 (⟨Role.human, cs "hi", none, none⟩ : SMsg))
      (fun p => p ++ [⟨Role.human, cs "q", []⟩, ⟨Role.ai, cs "answer", []⟩]) =
    (([] ++ [⟨Role.human, cs "q", []⟩, ⟨Role.ai, cs "answer", []⟩] : List Msg)).map serializeMessage :=
  history_ceiling_clears_before_turn _ _ (by simp [getMessages])

/-- C10 (implicit claim): when the ceiling clear does not fire, the persist
step appends the turn's entire final message list to the already-stored
history instead of replacing it; since the graph's final history begins
with the messages loaded at turn start, the post-persist store is
`serialized(loaded) ++ (serialized(loaded) ++ serialized(new))` — every
message loaded at turn start appears twice. -/
theorem persist_appends_loaded_history (store : List SMsg) (newMsgs : List Msg)
    (h : (getMessages store).length ≤ 100) :
    invokeOrchestrator store (fun past => past ++ newMsgs) =
      (getMessages store).map serializeMessage ++
      ((getMessages store).map serializeMessage ++ newMsgs.map serializeMessage) := by
  have h2 : ¬ (getMessages store).length > 100 := by omega
  simp only [invokeOrchestrator]
  rw [if_neg h2]
  simp [addMessages, List.map_append]

/-- C10's witness: a two-message store plus a one-message turn ends with
the loaded messages stored twice. -/
theorem persist_appends_loaded_history_witness :
    invokeOrchestrator [⟨Role.human, cs "hi", none, none⟩, ⟨Role.ai, cs "hello", none, none⟩]
      (fun past => past ++ [⟨Role.human, cs "more", []⟩]) =
      (getMessages [⟨Role.human, cs "hi", none, none⟩, ⟨Role.ai, cs "hello", none, none⟩]).map serializeMessage ++
      ((getMessages [⟨Role.human, cs "hi", none, none⟩, ⟨Role.ai, cs "hello", none, none⟩]).map serializeMessage ++
        ([⟨Role.human, cs "more", []⟩] : List Msg).map serializeMessage) :=
  persist_appends_loaded_history _ _ (by decide)

/-- C9's counterexample: a run consisting of a single tool-invocation
response whose tool result is a data result (not schema/metadata) reaches
the terminal state after 1 model cycle, not the 1 + 1 = 2 cycles the claim
demands. -/
theorem tool_loop_cycle_equality_counterexample :
    runToolLoop (fun _ => DbOutS.rows []) [ModelResponse.toolCall (cs "SELECT * FROM product")] = some 1 ∧
    countToolResponses [ModelResponse.toolCall (cs "SELECT * FROM product")] + 1 = 2 ∧
    (1 : Nat) ≠ 2 :=
  ⟨rfl, rfl, by decide⟩

/-- C9 as amended: for any finite model-response script (at most one tool
invocation honoured per cycle) whose run reaches the terminal state, the
number of model cycles is at most the number of tool-invocation responses
plus one; equality holds only when the run ends with a plain-text
response. -/
theorem tool_loop_cycles_at_most_tools_plus_one
    (dbEnv : List Char → DbOutS) (script : List ModelResponse) (n : Nat)
    (h : runToolLoop dbEnv script = some n) :
    n ≤ countToolResponses script + 1 := by
  induction script generalizing n with
  | nil => simp [runToolLoop] at h
  | cons r rest ih =>
      cases r with
      | text c =>
          simp [runToolLoop] at h
          omega
      | toolCall qq =>
          simp only [runToolLoop] at h
          split at h
          · rcases Option.map_eq_some'.mp h with ⟨m, hm, hn⟩
            have := ih m hm
            simp [countToolResponses]
            omega
          · simp at h
            simp [countToolResponses]
            omega

/-- C9's witness: a schema request (DESCRIBE) followed by a plain-text
answer terminates in 2 cycles, within the 1 + 1 bound. -/
theorem tool_loop_cycles_at_most_tools_plus_one_witness :
    runToolLoop (fun _ => DbOutS.rows [cs "\x7b'Field': 'sku', 'Type': 'varchar(50)'\x7d"])
      [ModelResponse.toolCall (cs "DESCRIBE product"), ModelResponse.text (cs "done")] = some 2 ∧
    2 ≤ countToolResponses [ModelResponse.toolCall (cs "DESCRIBE product"), ModelResponse.text (cs "done")] + 1 :=
  ⟨rfl, tool_loop_cycles_at_most_tools_plus_one
    (fun _ => DbOutS.rows [cs "\x7b'Field': 'sku', 'Type': 'varchar(50)'\x7d"])
    [ModelResponse.toolCall (cs "DESCRIBE product"), ModelResponse.text (cs "done")] 2 rfl⟩

/-- C3: for a continuation request, when the history scan locates the
latest assistant-produced structured query record with query text `q`
carrying a bound clause, the resolver emits the same query text with the
offset advanced: `OFFSET L` is appended when no offset clause is present,
and an existing offset `O` becomes `O + L`; concretely, a prior
`SELECT * FROM product LIMIT 20` resolves to
`SELECT * FROM product LIMIT 20 OFFSET 20`, and a prior
`SELECT * FROM product LIMIT 20 OFFSET 20` resolves to
`SELECT * FROM product LIMIT 20 OFFSET 40`.  The offset arithmetic is the
spec-modelled `resolveOffsetQuery` (in the source it is delegated to the
model via the pagination prompt). -/
theorem pagination_offset_resolution (history : List Msg) (req q : List Char)
    (hreq : isPaginationRequest req = true)
    (hfind : findLastQueryWithLimit history = some q) :
    (∀ L, limitValue q = some L → offsetValue q = none →
        resolveNextPage history req = some (q ++ cs " OFFSET " ++ natStr L)) ∧
    (∀ L O, limitValue q = some L → offsetValue q = some O →
        resolveNextPage history req = some (replaceOffsetNum q (natStr (O + L)))) ∧
    (q = cs "SELECT * FROM product LIMIT 20" →
        resolveNextPage history req = some (cs "SELECT * FROM product LIMIT 20 OFFSET 20")) ∧
    (q = cs "SELECT * FROM product LIMIT 20 OFFSET 20" →
        resolveNextPage history req = some (cs "SELECT * FROM product LIMIT 20 OFFSET 40")) := by
  have hbase : resolveNextPage history req = resolveOffsetQuery q := by
    simp [resolveNextPage, hreq, hfind]
  refine ⟨?_, ?_, ?_, ?_⟩
  · intro L hL hO
    rw [hbase]
    simp [resolveOffsetQuery, hL, hO]
  · intro L O hL hO
    rw [hbase]
    simp [resolveOffsetQuery, hL, hO]
  · intro hq
    subst hq
    rw [hbase]
    rfl
  · intro hq
    subst hq
    rw [hbase]
    rfl

/-- C3's witness: a history whose last structured query record carries
`LIMIT 20` resolves, on `show more`, to the same query with
`OFFSET 20` added. -/
theorem pagination_offset_resolution_witness :
    resolveNextPage
      [⟨Role.ai, cs "SQL Query Result: \x7b\"query\": \"SELECT * FROM product LIMIT 20\", \"count\": 0, \"results\": []\x7d", []⟩]
      (cs "show more") =
      some (cs "SELECT * FROM product LIMIT 20 OFFSET 20") :=
  (pagination_offset_resolution
    [⟨Role.ai, cs "SQL Query Result: \x7b\"query\": \"SELECT * FROM product LIMIT 20\", \"count\": 0, \"results\": []\x7d", []⟩]
    (cs "show more") (cs "SELECT * FROM product LIMIT 20") (by rfl) (by rfl)).2.2.1 rfl

/-- C4's counterexample: round-trip does not preserve every message's role —
a tool-result message (langchain type `tool`, constructed by
sql_assistant_agent.py) serializes with type `tool` and deserializes to the
AI fallback role. -/
theorem roundtrip_tool_role_counterexample :
    (deserializeMessage (serializeMessage ⟨Role.tool, cs "schema text", []⟩)).role = Role.ai ∧
    Role.ai ≠ Role.tool :=
  ⟨rfl, by decide⟩

/-- C4 as amended: for message lists of human/assistant/system-role
messages (tool-role messages instead deserialize to the assistant default),
`deserialize(serialize(history))` preserves every message's role; and for
every message, the Pagination Resolver's per-message extraction recovers
from the reconstructed content exactly the query — hence the same bound
(LIMIT) and offset (OFFSET) values — that it recovers from the original
content. -/
theorem roundtrip_preserves_roles_and_query (msgs : List Msg)
    (h : ∀ m ∈ msgs, m.role ≠ Role.tool) :
    (roundTrip msgs).map Msg.role = msgs.map Msg.role ∧
    ∀ m ∈ msgs,
      extractQueryFromContent (deserializeMessage (serializeMessage m)).content =
        extractQueryFromContent m.content ∧
      (extractQueryFromContent (deserializeMessage (serializeMessage m)).content).bind limitValue =
        (extractQueryFromContent m.content).bind limitValue ∧
      (extractQueryFromContent (deserializeMessage (serializeMessage m)).content).bind offsetValue =
        (extractQueryFromContent m.content).bind offsetValue := by
  constructor
  · unfold roundTrip
    rw [List.map_map, List.map_map]
    exact List.map_congr_left (fun m hm => roundtrip_role m (h m hm))
  · intro m hm
    refine ⟨roundtrip_content_query m, ?_, ?_⟩ <;> rw [roundtrip_content_query m]

/-- C4's witness: a history with a structured query-result payload
round-trips with roles preserved and the query (with its LIMIT value)
recoverable from the reconstructed content. -/
theorem roundtrip_preserves_roles_and_query_witness :
    (roundTrip [⟨Role.human, cs "show me rings", []⟩,
        ⟨Role.ai, cs "SQL Query Result: \x7b\"count\": 50, \"results\": [], \"query\": \"SELECT * FROM product LIMIT 10\", \"message\": \"ok\"\x7d", []⟩]).map Msg.role =
      ([⟨Role.human, cs "show me rings", []⟩,
        ⟨Role.ai, cs "SQL Query Result: \x7b\"count\": 50, \"results\": [], \"query\": \"SELECT * FROM product LIMIT 10\", \"message\": \"ok\"\x7d", []⟩] : List Msg).map Msg.role ∧
    ∀ m ∈ ([⟨Role.human, cs "show me rings", []⟩,
        ⟨Role.ai, cs "SQL Query Result: \x7b\"count\": 50, \"results\": [], \"query\": \"SELECT * FROM product LIMIT 10\", \"message\": \"ok\"\x7d", []⟩] : List Msg),
      extractQueryFromContent (deserializeMessage (serializeMessage m)).content =
        extractQueryFromContent m.content ∧
      (extractQueryFromContent (deserializeMessage (serializeMessage m)).content).bind limitValue =
        (extractQueryFromContent m.content).bind limitValue ∧
      (extractQueryFromContent (deserializeMessage (serializeMessage m)).content).bind offsetValue =
        (extractQueryFromContent m.content).bind offsetValue :=
  roundtrip_preserves_roles_and_query _ (by decide)

end StoreAgent
